import Mathlib

/-!
Shallow embedding of the core of the `faktory-client` node.js library
(`lib/client.js`, contemporary version: protocol version 2, `replyQueue`,
reconnect with linear backoff, iterated `Client.hash`).

JS strings fed to the hash are modelled as byte lists (`List Nat`); SHA-256
and UUID generation are external library primitives (per the repository,
`crypto` and `uuid/v4`), so SHA-256 is a parameter `sha : List Nat → List Nat`
of every definition that uses it, while `uuid/v4`'s formatting of 16 random
bytes into a hyphenated hex string is modelled concretely.  JS `undefined` /
absent fields are modelled with `Option`; JS falsiness of strings (`''` is
falsy) is modelled explicitly at each `||` / `if` of the source.
-/

/-- JSON values, the image of the JS objects the client serializes. -/
inductive Json where
  | null : Json
  | bool (b : Bool) : Json
  | num (n : Int) : Json
  | str (s : String) : Json
  | arr (elems : List Json) : Json
  | obj (fields : List (String × Json)) : Json

/-- Compact `JSON.stringify` rendering (string escaping elided: the encoder
relies on payloads containing no literal CR/LF, per the protocol). -/
def Json.stringify : Json → String
  | .null => "null"
  | .bool b => if b then "true" else "false"
  | .num n => toString n
  | .str s => "\x22" ++ s ++ "\x22"
  | .arr xs =>
      "[" ++ String.intercalate "," (xs.attach.map fun x => Json.stringify x.1) ++ "]"
  | .obj fs =>
      "\x7b" ++ String.intercalate ","
        (fs.attach.map fun f =>
          match f with
          | ⟨(k, v), _⟩ => "\x22" ++ k ++ "\x22:" ++ Json.stringify v)
        ++ "\x7d"
  decreasing_by
    · have := List.sizeOf_lt_of_mem x.2
      simp_wf
      omega
    · rename_i hmem
      have := List.sizeOf_lt_of_mem hmem
      simp_wf
      simp at this
      omega

/-- Lowercase hex digit for a nibble, used by `digest('hex')` and by
`uuid/v4`: codepoint 48 is the zero digit, codepoint 97 the letter a. -/
def hexDigit (n : Nat) : Char :=
  let m := n % 16
  if m < 10 then Char.ofNat (48 + m) else Char.ofNat (97 + (m - 10))

/-- Two lowercase hex characters for one byte. -/
def byteHex (b : Nat) : List Char := [hexDigit (b / 16), hexDigit b]

/-- Hex encoding of a byte string (node's `digest('hex')`). -/
def bytesToHex (bs : List Nat) : String :=
  String.mk (bs.foldr (fun b acc => byteHex b ++ acc) [])

/-- The `uuid/v4` library primitive: formats 16 random bytes as the usual
8-4-4-4-12 hyphenated lowercase hex string, with the version nibble forced
to 4 and the variant bits forced to 10. -/
def uuidv4 (bs : List Nat) : String :=
  let b := fun i => (bs ++ List.replicate 16 0).getD i 0
  String.mk
    (byteHex (b 0) ++ byteHex (b 1) ++ byteHex (b 2) ++ byteHex (b 3) ++ ['-'] ++
     byteHex (b 4) ++ byteHex (b 5) ++ ['-'] ++
     byteHex (64 + b 6 % 16) ++ byteHex (b 7) ++ ['-'] ++
     byteHex (128 + b 8 % 64) ++ byteHex (b 9) ++ ['-'] ++
     byteHex (b 10) ++ byteHex (b 11) ++ byteHex (b 12) ++
     byteHex (b 13) ++ byteHex (b 14) ++ byteHex (b 15))

/-- `const FAKTORY_PROTOCOL_VERSION = 2`. -/
def FAKTORY_PROTOCOL_VERSION : Int := 2

/-- A decoded reply as produced by `Client.parse`: an inline status has
`text`, a bulk JSON body has `payload`, the `HI` greeting has both. -/
structure Response where
  text : Option String
  payload : Option Json

/-- The JSON body of the server's `HI` greeting: protocol version `v`,
optional salt `s` (salt bytes), optional iteration count `i`. -/
structure Greeting where
  v : Int
  s : Option (List Nat)
  i : Option Nat

/-- The HELLO payload built by `buildHello`. -/
structure HelloPayload where
  hostname : String
  labels : List String
  v : Int
  pid : Option Nat
  wid : Option String
  pwdhash : Option String

/-- Client construction options that `buildHello` reads
(`this.password`, `this.labels`, `this.wid`). -/
structure ClientCfg where
  password : List Nat
  labels : List String
  wid : Option String

/-- Handshake failures (`checkVersion` throws on mismatch). -/
inductive HandshakeError where
  | versionMismatch (client server : Int) : HandshakeError
  deriving DecidableEq

/-- `Client.checkVersion`: throws unless the greeting's `v` equals the
compiled-in `FAKTORY_PROTOCOL_VERSION` (2). -/
def Client.checkVersion (v : Int) : Except HandshakeError Unit :=
  if v = FAKTORY_PROTOCOL_VERSION then .ok ()
  else .error (.versionMismatch FAKTORY_PROTOCOL_VERSION v)

/-- The hash-update loop of `Client.hash`: `n` further SHA-256 rounds, each
consuming the raw digest of the previous round. -/
def Client.hashLoop (sha : List Nat → List Nat) : List Nat → Nat → List Nat
  | d, 0 => d
  | d, n + 1 => Client.hashLoop sha (sha d) n

/-- `Client.hash(pwd, salt, iterations)`: one SHA-256 over `pwd + salt`,
then the loop `for (i = 1; i < iterations; i += 1)` rehashes the raw digest
`iterations - 1` more times; the final digest is hex-encoded.  (For
`iterations` ≤ 1, including a missing count modelled as 0, the loop body
never runs.) -/
def Client.hash (sha : List Nat → List Nat) (pwd salt : List Nat) (iterations : Nat) : String :=
  bytesToHex (Client.hashLoop sha (sha (pwd ++ salt)) (iterations - 1))

/-- `buildHello({ s: salt, i: iterations })`: hostname, labels and `v`
always; `pid`/`wid` only when a worker id is configured; `pwdhash` only when
the greeting carried a (truthy, i.e. non-empty) salt, computed by
`Client.hash` with the greeting's iteration count (absent count behaves as
0, running a single SHA-256 round). -/
def Client.buildHello (sha : List Nat → List Nat) (hostname : String) (pid : Nat)
    (cfg : ClientCfg) (g : Greeting) : HelloPayload :=
  let base : HelloPayload :=
    { hostname := hostname, labels := cfg.labels, v := FAKTORY_PROTOCOL_VERSION,
      pid := none, wid := none, pwdhash := none }
  let withWid :=
    match cfg.wid with
    | some w => { base with pid := some pid, wid := some w }
    | none => base
  match g.s with
  | some salt =>
      if salt = [] then withWid
      else { withWid with pwdhash := some (Client.hash sha cfg.password salt (g.i.getD 0)) }
  | none => withWid

/-- What one invocation of the `sayHello` continuation does to the promise
returned by `handshake()`.  `sayHello` is an `async` callback whose returned
promise `receive` discards: only the explicit `reject(err)` / `resolve(...)`
calls inside it settle the handshake promise. -/
inductive HandshakeEffect where
  | rejected (err : String) : HandshakeEffect
  | swallowed (e : HandshakeError) : HandshakeEffect
  | sentHello (h : HelloPayload) : HandshakeEffect

/-- True only when the effect called `reject` on the handshake promise. -/
def HandshakeEffect.isRejection : HandshakeEffect → Bool
  | .rejected _ => true
  | _ => false

/-- The `sayHello` continuation of `handshake()`, invoked by `receive` as
`callback(err, response)`.  An `err` argument (a decode failure on the
greeting) is the only path that calls `reject(err)`.  Otherwise
`Client.checkVersion(greeting.v)` runs: when it throws, the throw rejects
only the `async` callback's own promise, which `receive` discards —
`handshake()`'s `reject` is never called, so the handshake promise (and the
`connect()` awaiting it) is left pending, the error swallowed, and no HELLO
is written.  When the check passes, the HELLO payload is built and sent. -/
def Client.sayHelloStep (sha : List Nat → List Nat) (hostname : String) (pid : Nat)
    (cfg : ClientCfg) (arg : Except String Greeting) : HandshakeEffect :=
  match arg with
  | .error e => .rejected e
  | .ok g =>
    match Client.checkVersion g.v with
    | .error e => .swallowed e
    | .ok _ => .sentHello (Client.buildHello sha hostname pid cfg g)

/-- `Client.parse(data)`: `HI `-prefixed lines yield the greeting with its
JSON body, `\x7b`-prefixed lines yield a bulk JSON payload, anything else is
inline text.  `jp` is the external `JSON.parse`, which may fail. -/
def Client.parse (jp : String → Except String Json) (data : String) : Except String Response :=
  if data.startsWith "HI " then
    (jp (data.drop 3)).map fun payload => { text := some "HI", payload := some payload }
  else if data.startsWith "\x7b" then
    (jp data).map fun payload => { text := none, payload := some payload }
  else
    .ok { text := some data, payload := none }

/-- Items of a command tuple: `Client.encode` keeps strings unchanged and
`JSON.stringify`s everything else. -/
inductive CommandItem where
  | str (s : String) : CommandItem
  | json (j : Json) : CommandItem

/-- One element of `Client.encode`'s map. -/
def renderItem : CommandItem → String
  | .str s => s
  | .json j => j.stringify

/-- `Client.encode(command)`: render each element and join with single
spaces. -/
def Client.encode (cmd : List CommandItem) : String :=
  String.intercalate " " (cmd.map renderItem)

/-- Connection-engine state: the reply queue holds continuation ids in FIFO
order; the flags mirror `this.closing`, `this.connecting`, `this.connected`
and `this.socket.writable`; the three reconnect fields mirror
`reconnectAttempts`, `reconnectLimit` and `reconnectDelay`. -/
structure CState where
  replyQueue : List Nat
  closing : Bool
  connecting : Bool
  connected : Bool
  writable : Bool
  reconnectAttempts : Nat
  reconnectLimit : Nat
  reconnectDelay : Nat

/-- What the `close` handler decides to do after clearing the queue. -/
inductive CloseOutcome where
  | deliberate : CloseOutcome
  | scheduleReconnect (delayMs : Nat) : CloseOutcome
  | rejectConnect : CloseOutcome
  | fatalError : CloseOutcome
  deriving DecidableEq

/-- `onClose()`: sets `connected = false` and runs `clearReplyQueue()`
(which reassigns `this.replyQueue = []` without invoking any stored
callback; the third component of the result lists the queue entries that
were resumed with an error during close handling, and is therefore empty).
A deliberate close just clears the `closing` flag.  An unexpected close
reconnects while `reconnectAttempts < reconnectLimit`, incrementing the
counter and scheduling `_connect` after `reconnectDelay * reconnectAttempts`
(the incremented counter); once the budget is exhausted it rejects an
in-flight `connect()` or raises the error through `onError`. -/
def Client.onClose (s : CState) : CState × CloseOutcome × List Nat :=
  let s1 := { s with connected := false, replyQueue := ([] : List Nat) }
  if s.closing then
    ({ s1 with closing := false }, .deliberate, [])
  else if s.reconnectAttempts < s.reconnectLimit then
    ({ s1 with reconnectAttempts := s.reconnectAttempts + 1 },
     .scheduleReconnect (s.reconnectDelay * (s.reconnectAttempts + 1)), [])
  else
    (s1, (if s.connecting then .rejectConnect else .fatalError), [])

/-- The success path of `onConnect()`, after `handshake()` resolves:
`connecting = false`, `connected = true`, `reconnectAttempts = 0`. -/
def Client.onConnectSuccess (s : CState) : CState :=
  { s with connecting := false, connected := true, reconnectAttempts := 0 }

/-- `send` / `_send`: refuse with `Socket not writable` when the socket is
not writable (before anything is encoded or written); otherwise write the
encoded command plus CRLF and append the continuation `k` to the reply
queue.  Result: (state after, bytes written to the socket, outcome). -/
def Client.send (st : CState) (cmd : List CommandItem) (k : Nat) :
    CState × List String × Except String Unit :=
  if st.writable then
    ({ st with replyQueue := st.replyQueue ++ [k] },
     [Client.encode cmd ++ "\r\n"], .ok ())
  else
    (st, [], .error "Socket not writable")

/-- `receive(data)`: shift the head continuation (throwing a
dropped-response error when the queue is empty), deliver falsy data (the
null bulk, surfaced by the RESP parser as JS `null`) untouched via
`callback(null, data)`, and otherwise deliver `Client.parse`'s result or its
parse error.  Result: new state, the continuation resumed, and what it was
resumed with (`Except` error = the callback's `err` argument; `none` = the
falsy raw reply passed through). -/
def Client.receive (jp : String → Except String Json) (st : CState) (data : Option String) :
    Except String (CState × Nat × Except String (Option Response)) :=
  match st.replyQueue with
  | [] => .error "replyQueue empty. Dropped response"
  | k :: rest =>
    let st2 := { st with replyQueue := rest }
    match data with
    | none => .ok (st2, k, .ok none)
    | some d =>
      if d = "" then .ok (st2, k, .ok none)
      else
        match Client.parse jp d with
        | .error e => .ok (st2, k, .error e)
        | .ok r => .ok (st2, k, .ok (some r))

/-- `fetch(...queues)` maps its reply through `response && response.payload`:
a falsy (null) reply passes through as the null sentinel, a bulk reply
yields its payload. -/
def Client.fetchResult (r : Option Response) : Option Json :=
  match r with
  | none => none
  | some resp => resp.payload

/-- A caller-supplied job descriptor: the `jid` field (present, possibly
empty, or absent) and the remaining fields, which pass through opaquely. -/
structure JobDesc where
  jid : Option String
  rest : List (String × Json)

/-- `push(job)`: `const jid = job.jid || uuid()` (JS `||`: an absent or
empty `jid` selects the fresh uuid); `const payload = Object.assign({ jid },
job)` builds a new object seeded with that jid and overridden by every field
present on `job` (so a `jid` field present on `job`, even empty, wins);
`job` itself is never written to.  Result: (the caller's descriptor after
the call, the transmitted payload, the resolved jid). -/
def Client.push (job : JobDesc) (fresh : String) : JobDesc × JobDesc × String :=
  let jid :=
    match job.jid with
    | some s => if s = "" then fresh else s
    | none => fresh
  let payload : JobDesc := { jid := some (job.jid.getD jid), rest := job.rest }
  (job, payload, jid)

/-- The JSON-serializable body of a FAIL command. -/
structure FailBody where
  message : Option String
  errtype : Option String
  backtrace : List String
  jid : String

/-- `fail(jid, e)` builds `{ message: e.message, errtype: e.code, backtrace:
e.stack.split('\n').slice(0, 100), jid }`. -/
def Client.failBody (jid : String) (message errtype : Option String) (stack : String) : FailBody :=
  { message := message, errtype := errtype,
    backtrace := (stack.splitOn "\n").take 100, jid := jid }

/-- Spec-worded definition of `SHA256_iterated` for comparison with
`Client.hash`: iteration 1 produces `SHA256(pwd || salt)` and each
subsequent iteration feeds the raw (not hex) digest back into SHA-256. -/
def sha256IteratedSpec (sha : List Nat → List Nat) (input : List Nat) : Nat → List Nat
  | 0 => input
  | 1 => sha input
  | n + 2 => sha (sha256IteratedSpec sha input (n + 1))

theorem uuidv4_length (bs : List Nat) : (uuidv4 bs).length = 36 := by
  simp [uuidv4, byteHex, String.length]

theorem Client.hashLoop_succ (sha : List Nat → List Nat) (d : List Nat) (n : Nat) :
    Client.hashLoop sha d (n + 1) = sha (Client.hashLoop sha d n) := by
  induction n generalizing d with
  | zero => rfl
  | succ n ih =>
      have h1 : Client.hashLoop sha d (n + 1 + 1) = Client.hashLoop sha (sha d) (n + 1) := rfl
      have h2 : Client.hashLoop sha d (n + 1) = Client.hashLoop sha (sha d) n := rfl
      rw [h1, ih (sha d), h2]

theorem Client.hashLoop_eq_spec (sha : List Nat → List Nat) (x : List Nat) (n : Nat) :
    Client.hashLoop sha (sha x) n = sha256IteratedSpec sha x (n + 1) := by
  induction n with
  | zero => rfl
  | succ n ih =>
      rw [Client.hashLoop_succ, ih]
      rfl

/-- C1 (counterexample): a caller-supplied empty-string `jid` is falsy in
JS, so `job.jid || uuid()` discards it: `push` resolves with the generated
uuid — not the supplied jid, which it does not equal. -/
theorem push_supplied_jid_cex :
    (⟨some "", []⟩ : JobDesc).jid = some "" ∧
    (Client.push ⟨some "", []⟩ (uuidv4 [])).2.2 = uuidv4 [] ∧
    (Client.push ⟨some "", []⟩ (uuidv4 [])).2.2 ≠ "" :=
  ⟨rfl, rfl, by decide⟩

/-- C1 (amended): `push` resolves with the job's jid: a supplied non-empty
jid is returned unchanged; when the jid is omitted — or supplied as the
empty string, which JS `||` treats as absent — the returned value is the
generated uuid, a string of length 36 ≥ 8. -/
theorem push_resolves_jid (job : JobDesc) (bs : List Nat) :
    (∀ s, job.jid = some s → s ≠ "" → (Client.push job (uuidv4 bs)).2.2 = s) ∧
    (job.jid = none ∨ job.jid = some "" →
      (Client.push job (uuidv4 bs)).2.2 = uuidv4 bs ∧
      ((Client.push job (uuidv4 bs)).2.2).length = 36 ∧
      8 ≤ ((Client.push job (uuidv4 bs)).2.2).length) := by
  constructor
  · intro s hs hne
    simp [Client.push, hs, hne]
  · intro h
    have hlen := uuidv4_length bs
    have hfresh : (Client.push job (uuidv4 bs)).2.2 = uuidv4 bs := by
      rcases h with h | h <;> simp [Client.push, h]
    refine ⟨hfresh, ?_, ?_⟩
    · rw [hfresh, hlen]
    · rw [hfresh, hlen]
      omega

theorem push_resolves_jid_witness :
    (⟨some "abc123", []⟩ : JobDesc).jid = some "abc123" ∧
    (Client.push ⟨some "abc123", []⟩ (uuidv4 [0])).2.2 = "abc123" ∧
    (Client.push ⟨(none : Option String), []⟩ (uuidv4 [0])).2.2 = uuidv4 [0] ∧
    (Client.push ⟨some "", []⟩ (uuidv4 [0])).2.2 = uuidv4 [0] ∧
    ((Client.push ⟨some "", []⟩ (uuidv4 [0])).2.2).length = 36 :=
  ⟨rfl, (push_resolves_jid ⟨some "abc123", []⟩ [0]).1 "abc123" rfl (by decide),
   ((push_resolves_jid ⟨none, []⟩ [0]).2 (Or.inl rfl)).1,
   ((push_resolves_jid ⟨some "", []⟩ [0]).2 (Or.inr rfl)).1,
   ((push_resolves_jid ⟨some "", []⟩ [0]).2 (Or.inr rfl)).2.1⟩

/-- C2: the `pwdhash` field of the HELLO payload, for a greeting carrying a
salt and an iteration count `i ≥ 1`, equals the hex encoding of the
spec-worded iterated digest: `SHA256(pwd || salt)` for `i = 1`, and `i - 1`
further SHA-256 applications to the raw previous digest for `i > 1`. -/
theorem hello_pwdhash_iterated (sha : List Nat → List Nat) (hostname : String) (pid : Nat)
    (cfg : ClientCfg) (v : Int) (salt : List Nat) (i : Nat)
    (hs : salt ≠ []) (hi : 1 ≤ i) :
    (Client.buildHello sha hostname pid cfg { v := v, s := some salt, i := some i }).pwdhash
      = some (bytesToHex (sha256IteratedSpec sha (cfg.password ++ salt) i)) ∧
    Client.hash sha cfg.password salt i
      = bytesToHex (sha256IteratedSpec sha (cfg.password ++ salt) i) := by
  have key : Client.hash sha cfg.password salt i
      = bytesToHex (sha256IteratedSpec sha (cfg.password ++ salt) i) := by
    obtain ⟨n, rfl⟩ : ∃ n, i = n + 1 := ⟨i - 1, by omega⟩
    unfold Client.hash
    rw [show n + 1 - 1 = n from rfl, Client.hashLoop_eq_spec]
  refine ⟨?_, key⟩
  unfold Client.buildHello
  cases hw : cfg.wid <;> simp [hs, key]

theorem hello_pwdhash_iterated_witness :
    ([7] : List Nat) ≠ [] ∧ (1 : Nat) ≤ 3 ∧
    (Client.buildHello (fun l => [l.length % 256]) "host" 1 ⟨[1, 2], [], none⟩
        { v := 2, s := some [7], i := some 3 }).pwdhash
      = some (bytesToHex (sha256IteratedSpec (fun l => [l.length % 256]) ([1, 2] ++ [7]) 3)) :=
  ⟨by decide, by decide,
   (hello_pwdhash_iterated (fun l => [l.length % 256]) "host" 1 ⟨[1, 2], [], none⟩ 2 [7] 3
      (by decide) (by decide)).1⟩

/-- C3 (counterexample): on an unexpected close with one pending entry, the
close handler resumes no entry at all (`clearReplyQueue` reassigns the queue
to `[]` without invoking any stored callback), so "each entry is resumed
exactly once with a connection-lost error" fails: zero resumptions against
one pending entry. -/
theorem close_drop_pending_cex :
    (⟨[7], false, false, true, true, 0, 2, 2000⟩ : CState).replyQueue.length = 1 ∧
    (Client.onClose ⟨[7], false, false, true, true, 0, 2, 2000⟩).2.2 = [] ∧
    (Client.onClose ⟨[7], false, false, true, true, 0, 2, 2000⟩).2.2.length ≠
      (⟨[7], false, false, true, true, 0, 2, 2000⟩ : CState).replyQueue.length :=
  ⟨rfl, rfl, by decide⟩

/-- C3 (amended): on every close — deliberate or unexpected — the pending
reply queue is emptied, but its entries are discarded without being resumed:
no pending continuation observes a connection-lost error. -/
theorem close_clears_queue_without_resuming (s : CState) :
    (Client.onClose s).1.replyQueue = [] ∧
    (Client.onClose s).2.2 = [] ∧
    (Client.onClose s).1.connected = false := by
  unfold Client.onClose
  by_cases h1 : s.closing <;> by_cases h2 : s.reconnectAttempts < s.reconnectLimit <;>
    simp [h1, h2]

/-- C4: the FAIL body built from any error stack carries a backtrace of at
most 100 entries (`e.stack.split('\n').slice(0, 100)`). -/
theorem fail_backtrace_at_most_100 (jid : String) (message errtype : Option String)
    (stack : String) :
    (Client.failBody jid message errtype stack).backtrace.length ≤ 100 := by
  simp [Client.failBody]

/-- C5 (counterexample): `push` on a descriptor without a jid leaves the
caller's descriptor itself unchanged — `Object.assign({ jid }, job)` fills a
fresh object, and `job` is never written to — so after the call the caller's
object still has no `jid`. -/
theorem push_mutation_cex :
    (⟨none, [("jobtype", Json.str "test")]⟩ : JobDesc).jid = none ∧
    ((Client.push ⟨none, [("jobtype", Json.str "test")]⟩ (uuidv4 [1])).1).jid = none :=
  ⟨rfl, rfl⟩

/-- C5 (amended): `push` does not mutate the supplied descriptor; for a
descriptor without a jid, the generated uuid appears in the transmitted
payload's `jid` field and as the resolved value instead. -/
theorem push_builds_payload_without_mutation (job : JobDesc) (fresh : String) :
    (Client.push job fresh).1 = job ∧
    (job.jid = none →
      (Client.push job fresh).2.1.jid = some fresh ∧
      (Client.push job fresh).2.2 = fresh) := by
  refine ⟨rfl, fun h => ?_⟩
  constructor <;> simp [Client.push, h]

theorem push_builds_payload_without_mutation_witness :
    (Client.push ⟨none, []⟩ "f00f").1 = (⟨none, []⟩ : JobDesc) ∧
    (Client.push ⟨none, []⟩ "f00f").2.1.jid = some "f00f" ∧
    (Client.push ⟨none, []⟩ "f00f").2.2 = "f00f" :=
  ⟨(push_builds_payload_without_mutation ⟨none, []⟩ "f00f").1,
   ((push_builds_payload_without_mutation ⟨none, []⟩ "f00f").2 rfl).1,
   ((push_builds_payload_without_mutation ⟨none, []⟩ "f00f").2 rfl).2⟩

/-- C6: a null-bulk reply (server has no job) resumes the head pending
continuation with the null reply — no error — leaving the connected flag
untouched, and `fetch` maps it through `response && response.payload` to the
null sentinel, which is not an object payload. -/
theorem fetch_empty_reply (jp : String → Except String Json) (st : CState)
    (k : Nat) (rest : List Nat) (h : st.replyQueue = k :: rest) :
    Client.receive jp st none = .ok ({ st with replyQueue := rest }, k, .ok none) ∧
    ({ st with replyQueue := rest } : CState).connected = st.connected ∧
    Client.fetchResult none = none ∧
    (∀ fs : List (String × Json), Client.fetchResult none ≠ some (.obj fs)) := by
  refine ⟨?_, rfl, rfl, fun fs => by simp [Client.fetchResult]⟩
  simp [Client.receive, h]

theorem fetch_empty_reply_witness :
    (⟨[5], false, false, true, true, 0, 2, 2000⟩ : CState).replyQueue = 5 :: [] ∧
    Client.receive (fun _ => .error "nojson") ⟨[5], false, false, true, true, 0, 2, 2000⟩ none
      = .ok (⟨[], false, false, true, true, 0, 2, 2000⟩, 5, .ok none) ∧
    Client.fetchResult none = none := by
  have h := fetch_empty_reply (fun _ => .error "nojson")
    ⟨[5], false, false, true, true, 0, 2, 2000⟩ 5 [] rfl
  exact ⟨rfl, h.1, h.2.2.1⟩

/-- C7 (counterexample): on the greeting `HI {"v":3}` the version check
throws, but the throw lands in the discarded `async` callback promise: the
`sayHello` step's effect is `swallowed`, not a rejection of `handshake()`'s
promise, so the handshake — and the `connect()` awaiting it — is never
failed with the version-mismatch error the claim asserts. -/
theorem handshake_version_swallowed_cex :
    Client.sayHelloStep (fun l => l) "host" 1 ⟨[], [], none⟩
        (.ok { v := 3, s := none, i := none })
      = .swallowed (.versionMismatch 2 3) ∧
    (Client.sayHelloStep (fun l => l) "host" 1 ⟨[], [], none⟩
        (.ok { v := 3, s := none, i := none })).isRejection = false :=
  ⟨rfl, rfl⟩

/-- C7 (amended): the version check itself behaves as specified — for
`v ≠ 2` `checkVersion` produces the version-mismatch error and the `v = 2`
check passes, proceeding to the HELLO payload — but the thrown mismatch
error never reaches `handshake()`'s `reject`: it rejects only the discarded
`async` callback promise, so the `sayHello` step's effect is `swallowed`
(no rejection, no HELLO written) and `handshake()`/`connect()` are left
pending rather than failed with a version error. -/
theorem handshake_version_check_swallowed (sha : List Nat → List Nat) (hostname : String)
    (pid : Nat) (cfg : ClientCfg) (g : Greeting) :
    (g.v ≠ 2 →
      Client.checkVersion g.v = .error (.versionMismatch 2 g.v) ∧
      Client.sayHelloStep sha hostname pid cfg (.ok g)
        = .swallowed (.versionMismatch 2 g.v) ∧
      (Client.sayHelloStep sha hostname pid cfg (.ok g)).isRejection = false) ∧
    (g.v = 2 →
      Client.checkVersion g.v = .ok () ∧
      Client.sayHelloStep sha hostname pid cfg (.ok g)
        = .sentHello (Client.buildHello sha hostname pid cfg g)) := by
  unfold Client.sayHelloStep Client.checkVersion FAKTORY_PROTOCOL_VERSION
  constructor
  · intro h
    simp [h, HandshakeEffect.isRejection]
  · intro h
    simp [h]

theorem handshake_version_check_swallowed_witness :
    ((3 : Int) ≠ 2) ∧
    Client.checkVersion 3 = .error (.versionMismatch 2 3) ∧
    (Client.sayHelloStep (fun l => l) "host" 1 ⟨[], [], none⟩
        (.ok { v := 3, s := none, i := none })).isRejection = false ∧
    Client.sayHelloStep (fun l => l) "host" 1 ⟨[], [], none⟩
        (.ok { v := 2, s := none, i := none })
      = .sentHello (Client.buildHello (fun l => l) "host" 1 ⟨[], [], none⟩
          { v := 2, s := none, i := none }) :=
  ⟨by decide,
   ((handshake_version_check_swallowed (fun l => l) "host" 1 ⟨[], [], none⟩
      { v := 3, s := none, i := none }).1 (by decide)).1,
   ((handshake_version_check_swallowed (fun l => l) "host" 1 ⟨[], [], none⟩
      { v := 3, s := none, i := none }).1 (by decide)).2.2,
   ((handshake_version_check_swallowed (fun l => l) "host" 1 ⟨[], [], none⟩
      { v := 2, s := none, i := none }).2 rfl).2⟩

/-- C8: invoking `send` while the socket is not writable fails that
operation synchronously with the `Socket not writable` error, writes nothing
to the socket, and registers no continuation (the state, in particular the
reply queue, is unchanged). -/
theorem send_not_writable (st : CState) (cmd : List CommandItem) (k : Nat)
    (h : st.writable = false) :
    (Client.send st cmd k).2.2 = .error "Socket not writable" ∧
    (Client.send st cmd k).2.1 = [] ∧
    (Client.send st cmd k).1 = st := by
  simp [Client.send, h]

theorem send_not_writable_witness :
    (⟨[3], false, false, false, false, 0, 2, 2000⟩ : CState).writable = false ∧
    (Client.send ⟨[3], false, false, false, false, 0, 2, 2000⟩ [CommandItem.str "INFO"] 9).2.2
      = .error "Socket not writable" ∧
    (Client.send ⟨[3], false, false, false, false, 0, 2, 2000⟩ [CommandItem.str "INFO"] 9).2.1
      = [] ∧
    (Client.send ⟨[3], false, false, false, false, 0, 2, 2000⟩ [CommandItem.str "INFO"] 9).1
      = ⟨[3], false, false, false, false, 0, 2, 2000⟩ := by
  have h := send_not_writable ⟨[3], false, false, false, false, 0, 2, 2000⟩
    [CommandItem.str "INFO"] 9 rfl
  exact ⟨rfl, h.1, h.2.1, h.2.2⟩

/-- C9: on an unexpected close (not `closing`) with budget remaining
(`reconnectAttempts < reconnectLimit`), the attempt counter is incremented
and a reconnect is scheduled after `reconnectDelay × attempt` (linear
backoff, `attempt` being the incremented counter); with the budget exhausted
the engine gives up, rejecting an in-flight `connect()` or raising a fatal
error; and the successful-connection path resets the counter to zero. -/
theorem reconnect_backoff_policy (s : CState) (h : s.closing = false) :
    (s.reconnectAttempts < s.reconnectLimit →
      (Client.onClose s).1.reconnectAttempts = s.reconnectAttempts + 1 ∧
      (Client.onClose s).2.1
        = .scheduleReconnect (s.reconnectDelay * (s.reconnectAttempts + 1))) ∧
    (s.reconnectLimit ≤ s.reconnectAttempts →
      (Client.onClose s).2.1
        = (if s.connecting then .rejectConnect else .fatalError)) ∧
    (Client.onConnectSuccess s).reconnectAttempts = 0 := by
  refine ⟨fun hlt => ?_, fun hge => ?_, rfl⟩
  · unfold Client.onClose
    simp [h, hlt]
  · have hnlt : ¬ s.reconnectAttempts < s.reconnectLimit := by omega
    unfold Client.onClose
    simp [h, hnlt]

theorem reconnect_backoff_policy_witness :
    (⟨[], false, false, true, true, 0, 2, 2000⟩ : CState).closing = false ∧
    (0 : Nat) < 2 ∧
    (Client.onClose ⟨[], false, false, true, true, 0, 2, 2000⟩).1.reconnectAttempts = 0 + 1 ∧
    (Client.onClose ⟨[], false, false, true, true, 0, 2, 2000⟩).2.1
      = .scheduleReconnect (2000 * (0 + 1)) ∧
    (Client.onConnectSuccess ⟨[], false, false, true, true, 0, 2, 2000⟩).reconnectAttempts
      = 0 := by
  have h := reconnect_backoff_policy ⟨[], false, false, true, true, 0, 2, 2000⟩ rfl
  exact ⟨rfl, by decide, (h.1 (by decide)).1, (h.1 (by decide)).2, h.2.2⟩
